import Mathlib

/-!
Verification of the Sagui HTTP-server core (`sg_httpsrv.c` and the Auth /
Request layers specified in `spec.md`).

The C code is shallowly embedded:

* nullable pointers become `Option` values;
* function-pointer configuration slots become `Option Nat` (the `Nat` is an
  opaque identity of the installed function, so "replacing a hook" is
  observable);
* `errno` writes become an explicit `Option Int` result component
  (`none` = `errno` untouched);
* external collaborators (the MHD engine, `inet_pton`, `MHD_start_daemon`,
  the upload processor) become oracle parameters, since the spec treats them
  as opaque boundaries;
* the blocking parts of `sg_httpsrv_free` are modelled as an explicit event
  trace so that the lock / join / resume ordering is a provable property.

Functions of `sg_httpauth.c` and `sg_httpreq.c` are not present in the
sources (only their tests and callers are); those are modelled from the
spec, and each such definition is marked `Modelled from the spec:`.
-/

namespace Sagui

/-- POSIX error number used by the library for invalid arguments. -/
def EINVAL : Int := 22

/-- POSIX error number used by the library for a second write to a
write-once field. -/
def EALREADY : Int := 114

/-! ## String maps (`sg_strmap`)

The generic key-value container is out of scope of the core
(`spec.md` §1) and its implementation is not in the sources; it is
modelled from the spec as an ordered association list.  A null map
pointer is `none`; `sg_strmap_count` of a null map is `0` and
`sg_strmap_add` creates the map on first use, which is exactly the
lazily-allocated-map behaviour the Request tests rely on. -/

/-- An `sg_strmap` chain: ordered (key, value) pairs. -/
abbrev Strmap := List (String × String)

/-- Modelled from the spec: `sg_strmap_count` on a possibly-null map
(`sg_strmap.c` is not in the sources); a null map has zero pairs. -/
def sg_strmap_count (m : Option Strmap) : Nat :=
  (m.getD []).length

/-- Modelled from the spec: `sg_strmap_add` on a possibly-null map slot
(`sg_strmap.c` is not in the sources); appends the pair, allocating the
map when the slot is still null. -/
def sg_strmap_add (m : Option Strmap) (k v : String) : Option Strmap :=
  some ((m.getD []) ++ [(k, v)])

/-- Modelled from the spec: `sg_strmap_get` (first value stored under the
key, null when absent). -/
def sg_strmap_get (m : Option Strmap) (k : String) : Option String :=
  ((m.getD []).find? (fun p => p.1 = k)).map (·.2)

/-! ## Response and Auth objects

`sg_httpres`/`sg_httpauth` structs, as used by `sg_httpsrv.c` and the
tests `test_httpauth.c`.  `con` is the connection reference (nullable),
`handle` the composed MHD response (nullable), `ret` the verdict slot the
dispatcher hands back to the engine (`true` = `MHD_YES`). -/

structure SgHttpRes where
  con : Option Unit
  handle : Option Unit
  status : Nat
  ret : Bool
  headers : Option Strmap
deriving DecidableEq

structure SgHttpAuth where
  res : SgHttpRes
  realm : Option String
  canceled : Bool
  usr : Option String
  pwd : Option String
deriving DecidableEq

/-- Auth Gate dispatch verdicts (`spec.md` §4.3 and the glossary). -/
inductive AuthVerdict where
  | proceed
  | proceedWithResponse
  | rejectWithoutResponse
deriving DecidableEq

/-- Modelled from the spec: `sg__httpauth_dispatch` (`sg_httpauth.c` is not
in the sources).  Spec §4.3: if `canceled` and a denial response was
composed, proceed-with-response; if `canceled` and no response exists,
reject-without-response; if not `canceled` and the auth callback produced
an immediate denial result (`res.ret = false`), honor the composed denial
only when the connection reference is still valid, otherwise
reject-without-response; otherwise proceed. -/
def sg__httpauth_dispatch (a : SgHttpAuth) : AuthVerdict :=
  if a.canceled then
    if a.res.handle.isSome then .proceedWithResponse else .rejectWithoutResponse
  else if a.res.ret then .proceed
  else if a.res.con.isSome && a.res.handle.isSome then .proceedWithResponse
  else .rejectWithoutResponse

/-- The boolean protocol of `sg__httpauth_dispatch` as consumed by
`sg__httpsrv_ahc` (`src/unnamed/part_000` lines 77-81 and the assertions of
`test__httpauth_dispatch`): the first component is the C return value
(`false` means "stop here and hand `res.ret` to the engine"), the second is
the `res.ret` slot after the call (`true` = `MHD_YES`). -/
def sg__httpauth_dispatch_run (a : SgHttpAuth) : Bool × SgHttpAuth :=
  match sg__httpauth_dispatch a with
  | .proceed => (true, { a with res := { a.res with ret := true } })
  | .proceedWithResponse =>
      if a.canceled then (true, { a with res := { a.res with ret := true } })
      else (false, { a with res := { a.res with ret := true } })
  | .rejectWithoutResponse => (false, { a with res := { a.res with ret := false } })

/-- Modelled from the spec: `sg_httpauth_set_realm` (`sg_httpauth.c` is not
in the sources).  Spec §4.3: first call succeeds; any later call fails
AlreadyDone; realm is immutable thereafter; null auth or null value is
InvalidArgument (`test_httpauth_set_realm`). -/
def sg_httpauth_set_realm (auth : Option SgHttpAuth) (realm : Option String) :
    Int × Option SgHttpAuth :=
  match auth with
  | none => (EINVAL, none)
  | some a =>
    match realm with
    | none => (EINVAL, some a)
    | some r =>
      if a.realm.isSome then (EALREADY, some a)
      else (0, some { a with realm := some r })

/-- Modelled from the spec: `sg_httpauth_deny2` (`sg_httpauth.c` is not in
the sources).  Spec §4.3 and §8: validate the arguments first — null auth,
null header name, null header value, or a status outside [100,600) is
InvalidArgument and produces no response; then the first call composes the
denial response (handle, status, header pair) and records `result = true`;
later calls fail AlreadyDone and change nothing. -/
def sg_httpauth_deny2 (auth : Option SgHttpAuth) (reason content : Option String)
    (status : Nat) : Int × Option SgHttpAuth :=
  match auth with
  | none => (EINVAL, none)
  | some a =>
    if reason.isNone || content.isNone || status < 100 || 600 ≤ status then
      (EINVAL, some a)
    else if a.res.handle.isSome then (EALREADY, some a)
    else
      (0, some { a with res :=
        { a.res with
          handle := some ()
          status := status
          ret := true
          headers := sg_strmap_add a.res.headers (reason.getD "") (content.getD "") } })

/-- Modelled from the spec: `sg_httpauth_deny` delegates to
`sg_httpauth_deny2` with the default status 401 (`test_httpauth_deny`
asserts `MHD_HTTP_UNAUTHORIZED`). -/
def sg_httpauth_deny (auth : Option SgHttpAuth) (reason content : Option String) :
    Int × Option SgHttpAuth :=
  sg_httpauth_deny2 auth reason content 401

/-- Modelled from the spec: `sg_httpauth_cancel` (`sg_httpauth.c` is not in
the sources).  Spec §4.3: idempotent flag flip; null auth is
InvalidArgument. -/
def sg_httpauth_cancel (auth : Option SgHttpAuth) : Int × Option SgHttpAuth :=
  match auth with
  | none => (EINVAL, none)
  | some a => (0, some { a with canceled := true })

/-! ## Server container (`sg_httpsrv.c`, in the sources)

Isolated-worker registry entries carry the worker-thread identity and
whether the engine currently reports the owning connection as suspended
(the `MHD_CONNECTION_INFO_CONNECTION_SUSPENDED` query result, an engine
boundary oracle). -/

structure IsolatedEntry where
  tid : Nat
  suspended : Bool
deriving DecidableEq

structure SgHttpSrv where
  auth_cb : Option Nat
  req_cb : Option Nat
  err_cb : Option Nat
  cli_cb : Option Nat
  upld_cb : Option Nat
  upld_write_cb : Option Nat
  upld_free_cb : Option Nat
  upld_save_cb : Option Nat
  upld_save_as_cb : Option Nat
  uplds_dir : Option String
  post_buf_size : Nat
  payld_limit : Nat
  uplds_limit : Nat
  thr_pool_size : Nat
  con_limit : Nat
  con_timeout : Nat
  handle : Option Unit
  isolated_list : List IsolatedEntry
deriving DecidableEq

/-- Opaque identities for the default upload hooks installed by
`sg_httpsrv_new2` (`sg__httpupld_cb`, `sg__httpupld_write_cb`,
`sg__httpupld_free_cb`, `sg__httpupld_save_cb`, `sg__httpupld_save_as_cb`). -/
def defaultUpldCb : Nat := 100
def defaultUpldWriteCb : Nat := 101
def defaultUpldFreeCb : Nat := 102
def defaultUpldSaveCb : Nat := 103
def defaultUpldSaveAsCb : Nat := 104

/-- `sg_httpsrv_new2` (`src/unnamed/part_000` lines 264-307).  `tmpdir` is
the `sg_tmpdir()` oracle (null on allocation failure), `arm` selects the
constrained buffer/limit profile of the `__arm__` build.  `sg_alloc` is the
zeroing allocator, so the engine handle and the isolation registry start
empty. -/
def sg_httpsrv_new2 (auth_cb req_cb err_cb : Option Nat)
    (tmpdir : Option String) (arm : Bool) : Int × Option SgHttpSrv :=
  if req_cb.isNone || err_cb.isNone then (EINVAL, none)
  else
    match tmpdir with
    | none => (0, none)
    | some dir =>
      (0, some {
        auth_cb := auth_cb
        req_cb := req_cb
        err_cb := err_cb
        cli_cb := none
        upld_cb := some defaultUpldCb
        upld_write_cb := some defaultUpldWriteCb
        upld_free_cb := some defaultUpldFreeCb
        upld_save_cb := some defaultUpldSaveCb
        upld_save_as_cb := some defaultUpldSaveAsCb
        uplds_dir := some dir
        post_buf_size := if arm then 1024 else 4096
        payld_limit := if arm then 1048576 else 4194304
        uplds_limit := if arm then 16777216 else 67108864
        thr_pool_size := 0
        con_limit := 0
        con_timeout := 0
        handle := none
        isolated_list := [] })

/-- `sg_httpsrv_set_upld_cbs` (`src/unnamed/part_000` lines 443-455): the
null checks cover the server, the upload callback, the write hook, the
save hook and the save-as hook — not the free hook — and on success all
five hook slots are overwritten with the given values. -/
def sg_httpsrv_set_upld_cbs (srv : Option SgHttpSrv)
    (cb write_cb free_cb save_cb save_as_cb : Option Nat) :
    Int × Option SgHttpSrv :=
  match srv with
  | none => (EINVAL, none)
  | some s =>
    if cb.isNone || write_cb.isNone || save_cb.isNone || save_as_cb.isNone then
      (EINVAL, some s)
    else
      (0, some { s with
        upld_cb := cb
        upld_write_cb := write_cb
        upld_free_cb := free_cb
        upld_save_cb := save_cb
        upld_save_as_cb := save_as_cb })

/-- `sg_httpsrv_shutdown` (`src/unnamed/part_000` lines 406-414). -/
def sg_httpsrv_shutdown (srv : Option SgHttpSrv) : Int × Option SgHttpSrv :=
  match srv with
  | none => (EINVAL, none)
  | some s =>
    if s.handle.isNone then (EALREADY, some s)
    else (0, some { s with handle := none })

/-! ## `listen` (`sg__httpsrv_listen2`, `src/unnamed/part_000` lines 142-228)

External collaborators become oracles: `ipv4`/`ipv6` are the two
`inet_pton` literal parses and `mhdStart` is whether `MHD_start_daemon`
succeeds.  The outcome records everything the spec talks about: the final
boolean, whether `errno` was set, whether the error callback was invoked
(`sg__httpsrv_eprintf`), which socket address was bound, whether
`MHD_USE_DUAL_STACK` was added to the flags, whether the daemon start was
even attempted, the resulting engine handle, and whether TLS was enabled. -/

/-- The socket address handed to the engine. -/
inductive BindChoice where
  | noBind
  | v4 (host : String)
  | v6 (host : String)
  | wildcard
deriving DecidableEq

structure ListenOutcome where
  ok : Bool
  errnoSet : Option Int
  errReported : Bool
  bind : BindChoice
  dualStack : Bool
  startAttempted : Bool
  handle : Option Unit
  tlsEnabled : Bool
deriving DecidableEq

/-- The listen-time validation of `sg__httpsrv_listen2`
(`src/unnamed/part_000` lines 154-155): upload callback, write / save /
save-as hooks and the uploads directory must be set and the post-buffer
size must be at least 256.  The free hook is not part of this condition. -/
def listen2Invalid (s : SgHttpSrv) : Bool :=
  s.upld_cb.isNone || s.upld_write_cb.isNone || s.upld_save_cb.isNone ||
    s.upld_save_as_cb.isNone || s.uplds_dir.isNone || s.post_buf_size < 256

/-- Successful tail of `sg__httpsrv_listen2`: start the daemon with the
chosen address and record the handle (`src/unnamed/part_000`
lines 225-227). -/
def listen2Start (s : SgHttpSrv) (key cert : Option String) (bind : BindChoice)
    (dual : Bool) (mhdStart : Bool) : ListenOutcome :=
  { ok := mhdStart
    errnoSet := none
    errReported := false
    bind := bind
    dualStack := dual
    startAttempted := true
    handle := if mhdStart then some () else s.handle
    tlsEnabled := key.isSome && cert.isSome }

/-- `sg__httpsrv_listen2` (`src/unnamed/part_000` lines 142-228). -/
def sg__httpsrv_listen2 (srv : Option SgHttpSrv)
    (key _pwd cert _trust _dhparams _priorities : Option String)
    (ipv4 ipv6 : String → Bool) (hostname : Option String)
    (_port _backlog : Nat) (_threaded : Bool) (mhdStart : Bool) : ListenOutcome :=
  match srv with
  | none =>
    { ok := false, errnoSet := some EINVAL, errReported := false,
      bind := .noBind, dualStack := false, startAttempted := false,
      handle := none, tlsEnabled := false }
  | some s =>
    if listen2Invalid s then
      { ok := false, errnoSet := some EINVAL, errReported := false,
        bind := .noBind, dualStack := false, startAttempted := false,
        handle := s.handle, tlsEnabled := false }
    else
      match hostname with
      | some h =>
        if ipv4 h then listen2Start s key cert (.v4 h) false mhdStart
        else if ipv6 h then listen2Start s key cert (.v6 h) true mhdStart
        else
          { ok := false, errnoSet := some EINVAL, errReported := true,
            bind := .noBind, dualStack := false, startAttempted := false,
            handle := s.handle, tlsEnabled := false }
      | none => listen2Start s key cert .wildcard true mhdStart

/-- `sg_httpsrv_listen2` (`src/unnamed/part_000` lines 395-399): the public
non-TLS entry point, all TLS material null. -/
def sg_httpsrv_listen2 (srv : Option SgHttpSrv) (ipv4 ipv6 : String → Bool)
    (hostname : Option String) (port backlog : Nat) (threaded : Bool)
    (mhdStart : Bool) : ListenOutcome :=
  sg__httpsrv_listen2 srv none none none none none none ipv4 ipv6 hostname
    port backlog threaded mhdStart

/-! ## Connection Dispatcher (`sg__httpsrv_ahc`, `src/unnamed/part_000`
lines 58-97)

The access-handler callback is split into its two phases.  The start phase
(lines 72-83) creates the Request and runs the Auth Gate; the data phase
(lines 84-96) feeds the Upload Engine and invokes the request handler.
Boundary oracles: whether `sg__httpuplds_process` reports a terminal
condition and which verdict it stores, whether the engine reports the
connection suspended, and what `sg__httpres_dispatch` returns. -/

structure DataStepIn where
  upldTerminal : Bool
  upldRet : Bool
  suspended : Bool
  resDispatchRet : Bool
deriving DecidableEq

structure DataStepOut where
  upldProcessed : Bool
  handlerInvoked : Bool
  resDispatched : Bool
  result : Bool
deriving DecidableEq

/-- The start phase of `sg__httpsrv_ahc` (`src/unnamed/part_000`
lines 72-83), given the verdict `authRet` returned by the configured auth
callback and the Auth object it left behind.  Returns the `MHD_Result`
handed to the engine (`true` = `MHD_YES`), the Auth state after dispatch,
and whether the gate let processing continue. -/
def ahcStart (srv : SgHttpSrv) (auth : SgHttpAuth) (authRet : Bool) :
    Bool × SgHttpAuth × Bool :=
  match srv.auth_cb with
  | none => (true, auth, true)
  | some _ =>
    let a := { auth with res := { auth.res with ret := authRet } }
    let r := sg__httpauth_dispatch_run a
    if !r.1 then (r.2.res.ret, r.2, false)
    else (true, r.2, true)

/-- The data phase of `sg__httpsrv_ahc` (`src/unnamed/part_000`
lines 84-96): when the Auth Gate canceled processing, body handling is
skipped entirely; otherwise the chunk is fed to the Upload Engine, a
terminal upload verdict is returned at once, and for a non-isolated
request the user handler runs; finally a suspended connection yields
`MHD_YES` and otherwise the prepared response is dispatched. -/
def ahcData (canceled isolated : Bool) (inp : DataStepIn) : DataStepOut :=
  if !canceled then
    if inp.upldTerminal then
      { upldProcessed := true, handlerInvoked := false,
        resDispatched := false, result := inp.upldRet }
    else
      { upldProcessed := true, handlerInvoked := !isolated,
        resDispatched := !inp.suspended,
        result := if inp.suspended then true else inp.resDispatchRet }
  else
    { upldProcessed := false, handlerInvoked := false,
      resDispatched := !inp.suspended,
      result := if inp.suspended then true else inp.resDispatchRet }

/-! ## Request object (`sg_httpreq.c` is not in the sources)

The Request struct is modelled from `spec.md` §3: identity strings,
four lazily-allocated maps, a payload buffer, flags and a single-slot
user-data pointer.  The four map accessors return the *address* of the
corresponding slot inside the Request; a returned reference is modelled
as the slot's name, and reading through it is `readSlot` against the
current Request state. -/

inductive MapSlot where
  | headers
  | cookies
  | params
  | fields
deriving DecidableEq

structure SgHttpReq where
  version : Option String
  method : Option String
  path : Option String
  headers : Option Strmap
  cookies : Option Strmap
  params : Option Strmap
  fields : Option Strmap
  payload : String
  is_uploading : Bool
  isolated : Bool
  user_data : Option Nat
deriving DecidableEq

/-- Dereference a map reference against the current Request state. -/
def readSlot (r : SgHttpReq) : MapSlot → Option Strmap
  | .headers => r.headers
  | .cookies => r.cookies
  | .params => r.params
  | .fields => r.fields

/-- Store a map through a map reference. -/
def writeSlot (r : SgHttpReq) (s : MapSlot) (m : Option Strmap) : SgHttpReq :=
  match s with
  | .headers => { r with headers := m }
  | .cookies => { r with cookies := m }
  | .params => { r with params := m }
  | .fields => { r with fields := m }

/-- Modelled from the spec: the common shape of the four map accessors
(`sg_httpreq_headers` / `_cookies` / `_params` / `_fields`;
`sg_httpreq.c` is not in the sources).  A null Request yields a null
reference with `errno = EINVAL`; otherwise the address of the slot is
returned (never null, even while the slot itself is still null) and
`errno` is untouched (`test_httpreq_headers` ... `test_httpreq_fields`). -/
def sg_httpreq_map_ref (req : Option SgHttpReq) (s : MapSlot) :
    Option MapSlot × Option Int :=
  match req with
  | none => (none, some EINVAL)
  | some _ => (some s, none)

def sg_httpreq_headers (req : Option SgHttpReq) : Option MapSlot × Option Int :=
  sg_httpreq_map_ref req .headers

def sg_httpreq_cookies (req : Option SgHttpReq) : Option MapSlot × Option Int :=
  sg_httpreq_map_ref req .cookies

def sg_httpreq_params (req : Option SgHttpReq) : Option MapSlot × Option Int :=
  sg_httpreq_map_ref req .params

def sg_httpreq_fields (req : Option SgHttpReq) : Option MapSlot × Option Int :=
  sg_httpreq_map_ref req .fields

/-! ## `sg_httpsrv_free` (`src/unnamed/part_000` lines 313-345)

The blocking calls of `free` are modelled as an explicit event trace so
that the claimed ordering (mutex released around each join, all joins
before any resume, resumes before the engine stop) is a property of the
produced list.  The suspended-query result for each registered connection
is carried in its `IsolatedEntry`. -/

inductive FreeEv where
  | lock
  | unlock
  | joinThread (tid : Nat)
  | resumeCon (tid : Nat)
  | stopEngine
  | releaseSrv
deriving DecidableEq

/-- First `LL_FOREACH_SAFE` loop of `sg_httpsrv_free` (lines 321-329):
for each registered worker, release the registry mutex, block in
`pthread_join`, re-acquire the mutex.  No entry is removed here. -/
def joinPhase (l : List IsolatedEntry) : List FreeEv :=
  l.flatMap (fun e => [.unlock, .joinThread e.tid, .lock])

/-- Second `LL_FOREACH_SAFE` loop of `sg_httpsrv_free` (lines 332-339):
for each registered entry, query the engine for the suspended state,
resume the connection if it is suspended, then `LL_DELETE` the entry.
Returns the emitted events and the registry left after the loop. -/
def resumeLoop : List IsolatedEntry → List FreeEv × List IsolatedEntry
  | [] => ([], [])
  | e :: rest =>
    let r := resumeLoop rest
    ((if e.suspended then [FreeEv.resumeCon e.tid] else []) ++ r.1, r.2)

structure FreeOutcome where
  trace : List FreeEv
  registry : List IsolatedEntry
  handle : Option Unit
  released : Bool
deriving DecidableEq

/-- `sg_httpsrv_free` (`src/unnamed/part_000` lines 313-345): null-safe;
joins every registered worker (unlocking around each join), then resumes
the still-suspended connections while draining the registry, then calls
`sg_httpsrv_shutdown` (which stops the engine only when a handle is
live), and finally releases the owned strings, the mutex and the
container itself. -/
def sg_httpsrv_free (srv : Option SgHttpSrv) : FreeOutcome :=
  match srv with
  | none => { trace := [], registry := [], handle := none, released := false }
  | some s =>
    let rl := resumeLoop s.isolated_list
    { trace := [FreeEv.lock] ++ joinPhase s.isolated_list ++
        [FreeEv.unlock, FreeEv.lock] ++ rl.1 ++ [FreeEv.unlock] ++
        (if s.handle.isSome then [FreeEv.stopEngine] else []) ++
        [FreeEv.releaseSrv]
      registry := rl.2
      handle := none
      released := true }

/-! ## Concrete objects used by witnesses and counterexamples -/

/-- A concrete fully configured server: both required callbacks, all five
default upload hooks, an uploads directory, the default desktop buffer
profile, no live engine, empty isolation registry. -/
def baseSrv : SgHttpSrv :=
  { auth_cb := none, req_cb := some 1, err_cb := some 2, cli_cb := none,
    upld_cb := some defaultUpldCb, upld_write_cb := some defaultUpldWriteCb,
    upld_free_cb := some defaultUpldFreeCb, upld_save_cb := some defaultUpldSaveCb,
    upld_save_as_cb := some defaultUpldSaveAsCb, uplds_dir := some "/tmp",
    post_buf_size := 4096, payld_limit := 4194304, uplds_limit := 67108864,
    thr_pool_size := 0, con_limit := 0, con_timeout := 0, handle := none,
    isolated_list := [] }

/-- `baseSrv` with a live engine handle. -/
def srvLive : SgHttpSrv := { baseSrv with handle := some () }

/-- A fresh Auth object: valid connection reference, no composed
response, no realm, not canceled. -/
def authBase : SgHttpAuth :=
  { res := { con := some (), handle := none, status := 0, ret := false, headers := none },
    realm := none, canceled := false, usr := none, pwd := none }

/-- A canceled Auth whose denial response was composed. -/
def authCanceledDenied : SgHttpAuth :=
  { authBase with
    canceled := true
    res := { authBase.res with handle := some () } }

/-- A canceled Auth with no composed response. -/
def authCanceledBare : SgHttpAuth := { authBase with canceled := true }

/-- A concrete data-phase input: non-terminal chunk, connection not
suspended. -/
def dataIn0 : DataStepIn :=
  { upldTerminal := false, upldRet := false, suspended := false,
    resDispatchRet := true }

/-! ## Claims -/

/-- C5: `shutdown` is idempotent — on a server with a live engine handle
the first call stops the engine, clears the handle and returns 0; every
subsequent call, and any call on a server that never listened (no
handle), returns `EALREADY` and leaves the state unchanged. -/
theorem C5_shutdown_idempotent (s : SgHttpSrv) :
    (s.handle.isSome = true →
      sg_httpsrv_shutdown (some s) = (0, some { s with handle := none }) ∧
      sg_httpsrv_shutdown (some { s with handle := none }) =
        (EALREADY, some { s with handle := none })) ∧
    (s.handle = none → sg_httpsrv_shutdown (some s) = (EALREADY, some s)) := by
  refine ⟨fun h => ⟨?_, ?_⟩, fun h => ?_⟩
  · rw [Option.isSome_iff_exists] at h
    obtain ⟨u, hu⟩ := h
    simp [sg_httpsrv_shutdown, hu]
  · simp [sg_httpsrv_shutdown]
  · simp [sg_httpsrv_shutdown, h]

/-- Witness for C5 at the concrete live server `srvLive`. -/
theorem C5_shutdown_idempotent_witness :
    sg_httpsrv_shutdown (some srvLive) = (0, some { srvLive with handle := none }) ∧
    sg_httpsrv_shutdown (some { srvLive with handle := none }) =
      (EALREADY, some { srvLive with handle := none }) :=
  (C5_shutdown_idempotent srvLive).1 rfl

/-- C6: `setRealm` is write-once — on an Auth with no realm the first
call with a non-null value stores it and returns 0; every later call,
with the same or a different value, returns `EALREADY` and the stored
realm remains the first value. -/
theorem C6_set_realm_write_once (a : SgHttpAuth) (h : a.realm = none)
    (r r2 : String) :
    sg_httpauth_set_realm (some a) (some r) = (0, some { a with realm := some r }) ∧
    sg_httpauth_set_realm (some { a with realm := some r }) (some r2) =
      (EALREADY, some { a with realm := some r }) := by
  simp [sg_httpauth_set_realm, h]

/-- Witness for C6: realm "foo" sticks, a later "bar" is AlreadyDone. -/
theorem C6_set_realm_write_once_witness :
    sg_httpauth_set_realm (some authBase) (some "foo") =
      (0, some { authBase with realm := some "foo" }) ∧
    sg_httpauth_set_realm (some { authBase with realm := some "foo" }) (some "bar") =
      (EALREADY, some { authBase with realm := some "foo" }) :=
  C6_set_realm_write_once authBase rfl "foo" "bar"

/-- C10: `sg_httpsrv_set_upld_cbs` validates the server, the upload
callback and the write / save / save-as hooks, but not the free hook: a
null free hook is accepted and installed, replacing the default free hook
installed by `sg_httpsrv_new2`. -/
theorem C10_set_upld_cbs_free_hook_optional (s : SgHttpSrv)
    (cb w f sv sa : Option Nat) :
    (sg_httpsrv_set_upld_cbs none cb w f sv sa = (EINVAL, none)) ∧
    (cb = none ∨ w = none ∨ sv = none ∨ sa = none →
      sg_httpsrv_set_upld_cbs (some s) cb w f sv sa = (EINVAL, some s)) ∧
    (cb.isSome = true → w.isSome = true → sv.isSome = true → sa.isSome = true →
      sg_httpsrv_set_upld_cbs (some s) cb w none sv sa =
        (0, some { s with
                   upld_cb := cb
                   upld_write_cb := w
                   upld_free_cb := none
                   upld_save_cb := sv
                   upld_save_as_cb := sa })) ∧
    (∀ au rq er dir arm s₀,
      sg_httpsrv_new2 au rq er (some dir) arm = (0, some s₀) →
      s₀.upld_free_cb = some defaultUpldFreeCb) := by
  refine ⟨rfl, fun h => ?_, fun h1 h2 h3 h4 => ?_, fun au rq er dir arm s₀ hn => ?_⟩
  · rcases h with h | h | h | h <;> simp [sg_httpsrv_set_upld_cbs, h]
  · obtain ⟨cv, rfl⟩ := Option.isSome_iff_exists.mp h1
    obtain ⟨wv, rfl⟩ := Option.isSome_iff_exists.mp h2
    obtain ⟨vv, rfl⟩ := Option.isSome_iff_exists.mp h3
    obtain ⟨av, rfl⟩ := Option.isSome_iff_exists.mp h4
    simp [sg_httpsrv_set_upld_cbs]
  · cases rq with
    | none => simp [sg_httpsrv_new2, EINVAL] at hn
    | some rv =>
      cases er with
      | none => simp [sg_httpsrv_new2, EINVAL] at hn
      | some ev =>
        rw [show sg_httpsrv_new2 au (some rv) (some ev) (some dir) arm =
            (0, some {
              auth_cb := au, req_cb := some rv, err_cb := some ev, cli_cb := none,
              upld_cb := some defaultUpldCb, upld_write_cb := some defaultUpldWriteCb,
              upld_free_cb := some defaultUpldFreeCb, upld_save_cb := some defaultUpldSaveCb,
              upld_save_as_cb := some defaultUpldSaveAsCb, uplds_dir := some dir,
              post_buf_size := if arm then 1024 else 4096,
              payld_limit := if arm then 1048576 else 4194304,
              uplds_limit := if arm then 16777216 else 67108864,
              thr_pool_size := 0, con_limit := 0, con_timeout := 0,
              handle := none, isolated_list := [] }) from rfl] at hn
        injection hn with ha hb
        injection hb with hb
        rw [← hb]

/-- Witness for C10: installing hooks with a null free hook on the
freshly constructed server succeeds and clears the default free hook. -/
theorem C10_set_upld_cbs_free_hook_optional_witness :
    sg_httpsrv_set_upld_cbs (some baseSrv) (some 5) (some 6) none (some 7) (some 8) =
      (0, some { baseSrv with
                 upld_cb := some 5
                 upld_write_cb := some 6
                 upld_free_cb := none
                 upld_save_cb := some 7
                 upld_save_as_cb := some 8 }) ∧
    ∀ s₀, sg_httpsrv_new2 none (some 1) (some 2) (some "/tmp") false = (0, some s₀) →
      s₀.upld_free_cb = some defaultUpldFreeCb :=
  ⟨((C10_set_upld_cbs_free_hook_optional baseSrv (some 5) (some 6) none
      (some 7) (some 8)).2.2.1 rfl rfl rfl rfl),
   fun s₀ h => (C10_set_upld_cbs_free_hook_optional baseSrv (some 5) (some 6) none
      (some 7) (some 8)).2.2.2 none (some 1) (some 2) "/tmp" false s₀ h⟩

/-- C2 fails on the code: after `cancel()` the Connection Dispatcher
skips the whole data phase (`src/unnamed/part_000` line 84 guards it with
`!req->auth->canceled`) — at a concrete non-isolated data callback the
chunk is not fed to the Upload Engine and the request handler is not
invoked, contrary to the claimed resume of normal processing. -/
theorem C2_cancel_resumes_cex :
    ¬ ((ahcData true false dataIn0).upldProcessed = true ∧
       (ahcData true false dataIn0).handlerInvoked = true) := by
  decide

/-- C2 (amended): after the auth callback cancels the request, subsequent
data callbacks skip body handling entirely — the body/upload stream is
never fed to the Upload Engine and the user request handler is never
invoked, isolated or not; the cancel override takes effect only through
the Auth Gate dispatch verdict. -/
theorem C2_cancel_skips_processing (iso : Bool) (inp : DataStepIn) :
    (ahcData true iso inp).upldProcessed = false ∧
    (ahcData true iso inp).handlerInvoked = false := by
  simp [ahcData]

/-- C3 fails on the code: the free hook is not part of the listen-time
validation (`src/unnamed/part_000` lines 154-155 check the upload
callback, write / save / save-as hooks, the uploads dir and the
post-buffer size only) — on a server whose free hook alone is unset,
listen succeeds instead of failing with `EINVAL`. -/
theorem C3_listen_free_hook_cex :
    (sg_httpsrv_listen2 (some { baseSrv with upld_free_cb := none })
        (fun _ => false) (fun _ => false) none 8080 0 false true).ok = true ∧
    (sg_httpsrv_listen2 (some { baseSrv with upld_free_cb := none })
        (fun _ => false) (fun _ => false) none 8080 0 false true).errnoSet = none := by
  decide

/-- C3 (amended): listen returns false with `EINVAL` (engine not started)
whenever the upload callback, the write, save or save-as hook, or the
uploads directory is unset, or the post-buffer size is < 256; when all of
these are set and the post-buffer size is ≥ 256 this validation passes
and listen proceeds (with no host given, straight to the engine start) —
the free hook is not checked. -/
theorem C3_listen_validation (s : SgHttpSrv)
    (k p c t d pr : Option String) (i4 i6 : String → Bool)
    (hn : Option String) (port bl : Nat) (th ms : Bool) :
    ((s.upld_cb = none ∨ s.upld_write_cb = none ∨ s.upld_save_cb = none ∨
      s.upld_save_as_cb = none ∨ s.uplds_dir = none ∨ s.post_buf_size < 256) →
      sg__httpsrv_listen2 (some s) k p c t d pr i4 i6 hn port bl th ms =
        { ok := false, errnoSet := some EINVAL, errReported := false,
          bind := .noBind, dualStack := false, startAttempted := false,
          handle := s.handle, tlsEnabled := false }) ∧
    (s.upld_cb.isSome = true → s.upld_write_cb.isSome = true →
     s.upld_save_cb.isSome = true → s.upld_save_as_cb.isSome = true →
     s.uplds_dir.isSome = true → 256 ≤ s.post_buf_size →
      sg__httpsrv_listen2 (some s) k p c t d pr i4 i6 none port bl th ms =
        listen2Start s k c .wildcard true ms) := by
  constructor
  · intro h
    have hinv : listen2Invalid s = true := by
      rcases h with h | h | h | h | h | h <;>
        simp [listen2Invalid, h]
    simp [sg__httpsrv_listen2, hinv]
  · intro h1 h2 h3 h4 h5 h6
    have hinv : listen2Invalid s = false := by
      obtain ⟨v1, e1⟩ := Option.isSome_iff_exists.mp h1
      obtain ⟨v2, e2⟩ := Option.isSome_iff_exists.mp h2
      obtain ⟨v3, e3⟩ := Option.isSome_iff_exists.mp h3
      obtain ⟨v4, e4⟩ := Option.isSome_iff_exists.mp h4
      obtain ⟨v5, e5⟩ := Option.isSome_iff_exists.mp h5
      simp [listen2Invalid, e1, e2, e3, e4, e5, Nat.not_lt.mpr h6]
    simp [sg__httpsrv_listen2, hinv]

/-- Witness for the amended C3: a server missing only the upload callback
fails with `EINVAL`, while the fully configured `baseSrv` (free hook or
not) passes validation and reaches the engine start. -/
theorem C3_listen_validation_witness :
    sg__httpsrv_listen2 (some { baseSrv with upld_cb := none }) none none none
        none none none (fun _ => false) (fun _ => false) none 8080 0 false true =
      { ok := false, errnoSet := some EINVAL, errReported := false,
        bind := .noBind, dualStack := false, startAttempted := false,
        handle := none, tlsEnabled := false } ∧
    sg__httpsrv_listen2 (some baseSrv) none none none none none none
        (fun _ => false) (fun _ => false) none 8080 0 false true =
      listen2Start baseSrv none none .wildcard true true :=
  ⟨(C3_listen_validation { baseSrv with upld_cb := none } none none none none
      none none (fun _ => false) (fun _ => false) none 8080 0 false true).1
      (Or.inl rfl),
   (C3_listen_validation baseSrv none none none none none none
      (fun _ => false) (fun _ => false) none 8080 0 false true).2
      rfl rfl rfl rfl rfl (by decide)⟩

/-- C1: Auth Gate dispatch verdicts after `cancel()` — on an Auth whose
canceled flag is set, a composed denial response (a response handle
exists) makes dispatch return proceed-with-response: the dispatcher
returns the accept verdict `MHD_YES` to the engine and a later callback
delivers the prepared response; with no composed response dispatch
returns reject-without-response: the dispatcher returns `MHD_NO` to the
engine and the request handler is never invoked (neither by the start
phase nor by any data phase of a canceled request). -/
theorem C1_dispatch_after_cancel (a : SgHttpAuth) (hc : a.canceled = true) :
    (a.res.handle.isSome = true →
      sg__httpauth_dispatch a = AuthVerdict.proceedWithResponse ∧
      sg__httpauth_dispatch_run a =
        (true, { a with res := { a.res with ret := true } }) ∧
      (∀ srv authRet,
        (ahcStart srv { a with res := { a.res with ret := authRet } } authRet).1
          = true) ∧
      (∀ iso inp, inp.suspended = false →
        (ahcData true iso inp).resDispatched = true)) ∧
    (a.res.handle = none →
      sg__httpauth_dispatch a = AuthVerdict.rejectWithoutResponse ∧
      sg__httpauth_dispatch_run a =
        (false, { a with res := { a.res with ret := false } }) ∧
      (∀ srv authRet, srv.auth_cb.isSome = true →
        (ahcStart srv { a with res := { a.res with ret := authRet } } authRet).1
          = false ∧
        (ahcStart srv { a with res := { a.res with ret := authRet } }
          authRet).2.2 = false) ∧
      (∀ iso inp, (ahcData true iso inp).handlerInvoked = false)) := by
  constructor
  · intro hh
    refine ⟨?_, ?_, ?_, ?_⟩
    · simp [sg__httpauth_dispatch, hc, hh]
    · simp [sg__httpauth_dispatch_run, sg__httpauth_dispatch, hc, hh]
    · intro srv authRet
      cases hcb : srv.auth_cb with
      | none => simp [ahcStart, hcb]
      | some cid =>
        simp [ahcStart, hcb, sg__httpauth_dispatch_run,
          sg__httpauth_dispatch, hc, hh]
    · intro iso inp hs
      simp [ahcData, hs]
  · intro hh
    refine ⟨?_, ?_, ?_, ?_⟩
    · simp [sg__httpauth_dispatch, hc, hh]
    · simp [sg__httpauth_dispatch_run, sg__httpauth_dispatch, hc, hh]
    · intro srv authRet hcb
      obtain ⟨cid, hcb⟩ := Option.isSome_iff_exists.mp hcb
      constructor <;>
        simp [ahcStart, hcb, sg__httpauth_dispatch_run,
          sg__httpauth_dispatch, hc, hh]
    · intro iso inp
      simp [ahcData]

/-- Witness for C1 at the two concrete canceled Auth objects. -/
theorem C1_dispatch_after_cancel_witness :
    sg__httpauth_dispatch authCanceledDenied = AuthVerdict.proceedWithResponse ∧
    sg__httpauth_dispatch authCanceledBare = AuthVerdict.rejectWithoutResponse :=
  ⟨((C1_dispatch_after_cancel authCanceledDenied rfl).1 rfl).1,
   ((C1_dispatch_after_cancel authCanceledBare rfl).2 rfl).1⟩

/-- C4: host resolution in listen — with the validation passing, a given
host string is tried as an IPv4 literal first (binding the IPv4 address,
dual stack off, regardless of the IPv6 parse); on IPv4 failure the IPv6
parse is tried (binding the IPv6 address with dual stack on); if both
fail, the failure is reported through the error callback, `errno` is set
to `EINVAL` and listen returns false without attempting the engine
start; with no host string the server binds the dual-stack wildcard. -/
theorem C4_host_resolution (s : SgHttpSrv) (hv : listen2Invalid s = false)
    (k p c t d pr : Option String) (i4 i6 : String → Bool)
    (port bl : Nat) (th ms : Bool) :
    (∀ h, i4 h = true →
      sg__httpsrv_listen2 (some s) k p c t d pr i4 i6 (some h) port bl th ms =
        listen2Start s k c (.v4 h) false ms) ∧
    (∀ h, i4 h = false → i6 h = true →
      sg__httpsrv_listen2 (some s) k p c t d pr i4 i6 (some h) port bl th ms =
        listen2Start s k c (.v6 h) true ms) ∧
    (∀ h, i4 h = false → i6 h = false →
      sg__httpsrv_listen2 (some s) k p c t d pr i4 i6 (some h) port bl th ms =
        { ok := false, errnoSet := some EINVAL, errReported := true,
          bind := .noBind, dualStack := false, startAttempted := false,
          handle := s.handle, tlsEnabled := false }) ∧
    (sg__httpsrv_listen2 (some s) k p c t d pr i4 i6 none port bl th ms =
      listen2Start s k c .wildcard true ms) ∧
    (∀ h, (listen2Start s k c (.v4 h) false ms).dualStack = false ∧
      (listen2Start s k c (.v6 h) true ms).dualStack = true ∧
      (listen2Start s k c .wildcard true ms).dualStack = true) := by
  refine ⟨fun h h4 => ?_, fun h h4 h6 => ?_, fun h h4 h6 => ?_, ?_,
    fun h => ⟨rfl, rfl, rfl⟩⟩ <;>
    simp [sg__httpsrv_listen2, hv, *]

/-- Witness for C4 with concrete literal parsers accepting exactly
"127.0.0.1" (IPv4) and "::1" (IPv6), exercising all four branches. -/
theorem C4_host_resolution_witness :
    (sg__httpsrv_listen2 (some baseSrv) none none none none none none
        (fun h => h = "127.0.0.1") (fun h => h = "::1") (some "127.0.0.1")
        8080 0 false true =
      listen2Start baseSrv none none (.v4 "127.0.0.1") false true) ∧
    (sg__httpsrv_listen2 (some baseSrv) none none none none none none
        (fun h => h = "127.0.0.1") (fun h => h = "::1") (some "::1")
        8080 0 false true =
      listen2Start baseSrv none none (.v6 "::1") true true) ∧
    (sg__httpsrv_listen2 (some baseSrv) none none none none none none
        (fun h => h = "127.0.0.1") (fun h => h = "::1") (some "bogus")
        8080 0 false true =
      { ok := false, errnoSet := some EINVAL, errReported := true,
        bind := .noBind, dualStack := false, startAttempted := false,
        handle := baseSrv.handle, tlsEnabled := false }) ∧
    (sg__httpsrv_listen2 (some baseSrv) none none none none none none
        (fun h => h = "127.0.0.1") (fun h => h = "::1") none
        8080 0 false true =
      listen2Start baseSrv none none .wildcard true true) :=
  ⟨(C4_host_resolution baseSrv (by decide) none none none none none none
      (fun h => h = "127.0.0.1") (fun h => h = "::1") 8080 0 false true).1
      "127.0.0.1" (by decide),
   (C4_host_resolution baseSrv (by decide) none none none none none none
      (fun h => h = "127.0.0.1") (fun h => h = "::1") 8080 0 false true).2.1
      "::1" (by decide) (by decide),
   (C4_host_resolution baseSrv (by decide) none none none none none none
      (fun h => h = "127.0.0.1") (fun h => h = "::1") 8080 0 false true).2.2.1
      "bogus" (by decide) (by decide),
   (C4_host_resolution baseSrv (by decide) none none none none none none
      (fun h => h = "127.0.0.1") (fun h => h = "::1") 8080 0 false true).2.2.2.1⟩

/-- The Auth state after a successful `deny`: response handle composed,
status recorded, result flag set, header pair appended. -/
def denyComposed (a : SgHttpAuth) (hdr v : String) (st : Nat) : SgHttpAuth :=
  { a with res :=
    { a.res with
      handle := some ()
      status := st
      ret := true
      headers := sg_strmap_add a.res.headers hdr v } }

/-- C7 fails on the code as stated: `deny` validates its arguments before
the already-done check, so once a denial is composed a later call with a
status outside [100,600) returns `EINVAL`, not `EALREADY`. -/
theorem C7_deny_later_invalid_cex :
    (sg_httpauth_deny2
        (sg_httpauth_deny2 (some authBase) (some "WWW-Authenticate") (some "x")
          403).2
        (some "WWW-Authenticate") (some "y") 99).1 = EINVAL ∧
    (EINVAL : Int) ≠ EALREADY := by
  decide

/-- C7 (amended): `deny` validates its arguments first — any call with a
null header name, a null header value, or a status outside [100,600)
returns `EINVAL` and composes or changes nothing, whether or not a denial
was already composed; on an Auth with no composed denial the first call
with valid arguments composes the denial response with exactly the given
status and header pair; and every later call that passes the argument
validation returns `EALREADY` and leaves the composed response (status
and header value) unchanged. -/
theorem C7_deny_status_validation (a : SgHttpAuth) (hN : a.res.handle = none)
    (hdr v : String) (st : Nat) (hlo : 100 ≤ st) (hhi : st < 600) :
    (∀ (b : SgHttpAuth) (r c : Option String) (s0 : Nat), s0 < 100 ∨ 600 ≤ s0 →
      sg_httpauth_deny2 (some b) r c s0 = (EINVAL, some b)) ∧
    (∀ (b : SgHttpAuth) (c : Option String) (s0 : Nat),
      sg_httpauth_deny2 (some b) none c s0 = (EINVAL, some b)) ∧
    (∀ (b : SgHttpAuth) (r : Option String) (s0 : Nat),
      sg_httpauth_deny2 (some b) r none s0 = (EINVAL, some b)) ∧
    (sg_httpauth_deny2 (some a) (some hdr) (some v) st =
      (0, some (denyComposed a hdr v st))) ∧
    (∀ (h2 v2 : String) (s2 : Nat), 100 ≤ s2 → s2 < 600 →
      sg_httpauth_deny2 (some (denyComposed a hdr v st)) (some h2) (some v2) s2 =
        (EALREADY, some (denyComposed a hdr v st))) := by
  refine ⟨fun b r c s0 h0 => ?_, fun b c s0 => ?_, fun b r s0 => ?_, ?_,
    fun h2 v2 s2 h2lo h2hi => ?_⟩
  · rcases h0 with h0 | h0 <;> simp [sg_httpauth_deny2, h0]
  · simp [sg_httpauth_deny2]
  · cases r <;> simp [sg_httpauth_deny2]
  · simp [sg_httpauth_deny2, hN, denyComposed, Nat.not_lt.mpr hlo,
      Nat.not_le.mpr hhi]
  · simp [sg_httpauth_deny2, denyComposed, Nat.not_lt.mpr h2lo,
      Nat.not_le.mpr h2hi]

/-- Witness for the amended C7 at a concrete fresh Auth: status 99 is
rejected, 403 composes, a later valid 200 is AlreadyDone. -/
theorem C7_deny_status_validation_witness :
    sg_httpauth_deny2 (some authBase) (some "X") (some "y") 99 =
      (EINVAL, some authBase) ∧
    sg_httpauth_deny2 (some authBase) (some "WWW-Authenticate") (some "Basic") 403 =
      (0, some (denyComposed authBase "WWW-Authenticate" "Basic" 403)) ∧
    sg_httpauth_deny2 (some (denyComposed authBase "WWW-Authenticate" "Basic" 403))
        (some "X") (some "y") 200 =
      (EALREADY, some (denyComposed authBase "WWW-Authenticate" "Basic" 403)) :=
  ⟨(C7_deny_status_validation authBase rfl "WWW-Authenticate" "Basic" 403
      (by decide) (by decide)).1 authBase (some "X") (some "y") 99
      (Or.inl (by decide)),
   (C7_deny_status_validation authBase rfl "WWW-Authenticate" "Basic" 403
      (by decide) (by decide)).2.2.2.1,
   (C7_deny_status_validation authBase rfl "WWW-Authenticate" "Basic" 403
      (by decide) (by decide)).2.2.2.2 "X" "y" 200 (by decide) (by decide)⟩

/-- Reading a slot right after writing it yields the written map. -/
theorem readSlot_writeSlot (r : SgHttpReq) (s : MapSlot) (m : Option Strmap) :
    readSlot (writeSlot r s m) s = m := by
  cases s <;> rfl

/-- C8: lazily-allocated map invariant — for every non-null Request each
of the four map accessors returns a non-null reference to its slot with
`errno` untouched; dereferencing the reference while the slot is still
null gives an empty map (count 0); an entry added afterwards through the
slot is visible through the same reference (the count grows and the pair
is present); and the accessors return null (with `errno = EINVAL`) only
for a null Request. -/
theorem C8_lazy_map_invariant (req : SgHttpReq) (slot : MapSlot) (k v : String) :
    (sg_httpreq_headers (some req) = (some MapSlot.headers, none) ∧
     sg_httpreq_cookies (some req) = (some MapSlot.cookies, none) ∧
     sg_httpreq_params (some req) = (some MapSlot.params, none) ∧
     sg_httpreq_fields (some req) = (some MapSlot.fields, none)) ∧
    (readSlot req slot = none → sg_strmap_count (readSlot req slot) = 0) ∧
    (sg_strmap_count (readSlot (writeSlot req slot
        (sg_strmap_add (readSlot req slot) k v)) slot) =
      sg_strmap_count (readSlot req slot) + 1 ∧
     (k, v) ∈ (readSlot (writeSlot req slot
        (sg_strmap_add (readSlot req slot) k v)) slot).getD []) ∧
    (sg_httpreq_map_ref none slot = (none, some EINVAL)) := by
  refine ⟨⟨rfl, rfl, rfl, rfl⟩, fun h => ?_, ⟨?_, ?_⟩, rfl⟩
  · simp [sg_strmap_count, h]
  · simp [readSlot_writeSlot, sg_strmap_add, sg_strmap_count]
  · simp [readSlot_writeSlot, sg_strmap_add]

/-- Witness for C8 at a concrete Request whose slots are all null. -/
def reqEmpty : SgHttpReq :=
  { version := none, method := none, path := none, headers := none,
    cookies := none, params := none, fields := none, payload := "",
    is_uploading := false, isolated := false, user_data := none }

/-- Witness for C8: on `reqEmpty` the headers accessor is non-null, the
slot dereferences to an empty map, and an added pair becomes visible. -/
theorem C8_lazy_map_invariant_witness :
    sg_httpreq_headers (some reqEmpty) = (some MapSlot.headers, none) ∧
    sg_strmap_count (readSlot reqEmpty MapSlot.headers) = 0 ∧
    (("foo", "bar") ∈ (readSlot (writeSlot reqEmpty MapSlot.headers
        (sg_strmap_add (readSlot reqEmpty MapSlot.headers) "foo" "bar"))
        MapSlot.headers).getD []) :=
  ⟨(C8_lazy_map_invariant reqEmpty MapSlot.headers "foo" "bar").1.1,
   (C8_lazy_map_invariant reqEmpty MapSlot.headers "foo" "bar").2.1 rfl,
   (C8_lazy_map_invariant reqEmpty MapSlot.headers "foo" "bar").2.2.1.2⟩

/-! ### Helper lemmas about the `sg_httpsrv_free` trace -/

/-- The part of the free trace following the join phase. -/
def restEvents (s : SgHttpSrv) : List FreeEv :=
  [FreeEv.unlock, FreeEv.lock] ++ (resumeLoop s.isolated_list).1 ++
    [FreeEv.unlock] ++ (if s.handle.isSome then [FreeEv.stopEngine] else []) ++
    [FreeEv.releaseSrv]

theorem free_trace_eq (s : SgHttpSrv) :
    (sg_httpsrv_free (some s)).trace =
      FreeEv.lock :: (joinPhase s.isolated_list ++ restEvents s) := by
  simp [sg_httpsrv_free, restEvents, List.append_assoc]

theorem resumeLoop_cons (e : IsolatedEntry) (rest : List IsolatedEntry) :
    resumeLoop (e :: rest) =
      ((if e.suspended then [FreeEv.resumeCon e.tid] else []) ++
        (resumeLoop rest).1, (resumeLoop rest).2) := rfl

/-- The second free loop deletes every registry entry it visits. -/
theorem resumeLoop_registry (l : List IsolatedEntry) : (resumeLoop l).2 = [] := by
  induction l with
  | nil => rfl
  | cons e rest ih => rw [resumeLoop_cons]; exact ih

/-- Every event of the resume loop is a connection resume of a suspended
registered entry. -/
theorem mem_resumeLoop (l : List IsolatedEntry) (x : FreeEv)
    (hx : x ∈ (resumeLoop l).1) :
    ∃ e ∈ l, e.suspended = true ∧ x = FreeEv.resumeCon e.tid := by
  induction l with
  | nil => simp [resumeLoop] at hx
  | cons e rest ih =>
    rw [resumeLoop_cons] at hx
    rcases List.mem_append.mp hx with hx | hx
    · by_cases hs : e.suspended = true
      · simp only [hs, if_true, List.mem_singleton] at hx
        exact ⟨e, List.mem_cons_self e rest, hs, hx⟩
      · simp [hs] at hx
    · obtain ⟨a, ha, hsa, hxa⟩ := ih hx
      exact ⟨a, List.mem_cons_of_mem e ha, hsa, hxa⟩

/-- Every suspended registered entry is resumed by the resume loop. -/
theorem resumeCon_mem_resumeLoop (l : List IsolatedEntry) (e : IsolatedEntry)
    (he : e ∈ l) (hs : e.suspended = true) :
    FreeEv.resumeCon e.tid ∈ (resumeLoop l).1 := by
  induction l with
  | nil => simp at he
  | cons a rest ih =>
    rw [resumeLoop_cons]
    rcases List.mem_cons.mp he with rfl | he'
    · exact List.mem_append.mpr (Or.inl (by simp [hs]))
    · exact List.mem_append.mpr (Or.inr (ih he'))

/-- Every event of the join phase is an unlock, a lock, or a join of a
registered worker. -/
theorem mem_joinPhase (l : List IsolatedEntry) (x : FreeEv)
    (hx : x ∈ joinPhase l) :
    x = FreeEv.unlock ∨ x = FreeEv.lock ∨
      ∃ e ∈ l, x = FreeEv.joinThread e.tid := by
  rw [joinPhase, List.mem_flatMap] at hx
  obtain ⟨e, he, hxe⟩ := hx
  simp only [List.mem_cons, List.mem_singleton, List.not_mem_nil, or_false]
    at hxe
  rcases hxe with h | h | h
  · exact Or.inl h
  · exact Or.inr (Or.inr ⟨e, he, h⟩)
  · exact Or.inr (Or.inl h)

/-- Every registered worker is joined by the join phase. -/
theorem joinThread_mem_joinPhase (l : List IsolatedEntry) (e : IsolatedEntry)
    (he : e ∈ l) : FreeEv.joinThread e.tid ∈ joinPhase l := by
  rw [joinPhase, List.mem_flatMap]
  exact ⟨e, he, by simp⟩

/-- No event after the join phase is a thread join. -/
theorem restEvents_no_join (s : SgHttpSrv) (t : Nat) :
    FreeEv.joinThread t ∉ restEvents s := by
  intro h
  rw [restEvents] at h
  rcases List.mem_append.mp h with h | h
  · rcases List.mem_append.mp h with h | h
    · rcases List.mem_append.mp h with h | h
      · rcases List.mem_append.mp h with h | h
        · simp at h
        · obtain ⟨e, _, _, he⟩ := mem_resumeLoop _ _ h
          exact FreeEv.noConfusion he
      · simp at h
    · split at h <;> simp at h
  · simp at h

/-- In `joinPhase l ++ rest` (with no join event in `rest`), every join
event sits strictly between an unlock and a lock. -/
theorem joinPhase_bracket (l : List IsolatedEntry) (rest : List FreeEv)
    (hrest : ∀ t, FreeEv.joinThread t ∉ rest) :
    ∀ n t, (joinPhase l ++ rest)[n]? = some (FreeEv.joinThread t) →
      n ≠ 0 ∧ (joinPhase l ++ rest)[n-1]? = some FreeEv.unlock ∧
      (joinPhase l ++ rest)[n+1]? = some FreeEv.lock := by
  induction l with
  | nil =>
    intro n t hn
    rw [show joinPhase [] ++ rest = rest from by simp [joinPhase]] at hn
    exact absurd (List.getElem?_mem hn) (hrest t)
  | cons e tl ih =>
    intro n t hn
    have hexp : joinPhase (e :: tl) ++ rest =
        FreeEv.unlock :: FreeEv.joinThread e.tid :: FreeEv.lock ::
          (joinPhase tl ++ rest) := by
      simp [joinPhase]
    rw [hexp] at hn ⊢
    match n, hn with
    | 0, hn => exact absurd hn (by simp)
    | 1, hn => exact ⟨one_ne_zero, rfl, by simp⟩
    | 2, hn => exact absurd hn (by simp)
    | (m+3), hn =>
      have hn' : (joinPhase tl ++ rest)[m]? = some (FreeEv.joinThread t) := by
        simpa using hn
      obtain ⟨hm0, hmu, hml⟩ := ih m t hn'
      obtain ⟨m', rfl⟩ : ∃ m', m = m' + 1 :=
        ⟨m - 1, (Nat.succ_pred_eq_of_pos (Nat.pos_of_ne_zero hm0)).symm⟩
      refine ⟨by omega, ?_, ?_⟩
      · simpa using hmu
      · simpa using hml

/-- Positional separation across an append: an element satisfying `P`
(absent from the suffix) sits strictly before an element satisfying `Q`
(absent from the prefix). -/
theorem append_pos_lt {α : Type} (P Q : α → Prop) (xs ys : List α)
    (hP : ∀ a ∈ ys, ¬ P a) (hQ : ∀ a ∈ xs, ¬ Q a)
    {i j : Nat} {u v : α}
    (hi : (xs ++ ys)[i]? = some u) (hu : P u)
    (hj : (xs ++ ys)[j]? = some v) (hv : Q v) : i < j := by
  have hix : i < xs.length := by
    by_contra hge
    push_neg at hge
    rw [List.getElem?_append_right hge] at hi
    exact hP u (List.getElem?_mem hi) hu
  have hjy : xs.length ≤ j := by
    by_contra hlt
    push_neg at hlt
    rw [List.getElem?_append, if_pos hlt] at hj
    exact hQ v (List.getElem?_mem hj) hv
  omega

/-- C9: `sg_httpsrv_free` drains the isolation registry completely — the
registry left by the drain loop is empty; every registered worker is
joined, and each blocking join sits strictly between a mutex release and
a re-acquisition; every registered connection still marked suspended is
resumed, every resume happens only after all joins, and the engine is
stopped only after every resume; on a server that never listened (no
engine handle) the trace contains no engine stop and free still runs to
completion. -/
theorem C9_free_drains_registry (s : SgHttpSrv) :
    ((sg_httpsrv_free (some s)).registry = []) ∧
    (∀ e ∈ s.isolated_list,
      FreeEv.joinThread e.tid ∈ (sg_httpsrv_free (some s)).trace) ∧
    (∀ (n t : Nat), (sg_httpsrv_free (some s)).trace[n]? =
        some (FreeEv.joinThread t) →
      n ≠ 0 ∧
      (sg_httpsrv_free (some s)).trace[n-1]? = some FreeEv.unlock ∧
      (sg_httpsrv_free (some s)).trace[n+1]? = some FreeEv.lock) ∧
    (∀ e ∈ s.isolated_list, e.suspended = true →
      FreeEv.resumeCon e.tid ∈ (sg_httpsrv_free (some s)).trace) ∧
    (∀ (i j a b : Nat),
      (sg_httpsrv_free (some s)).trace[i]? = some (FreeEv.joinThread a) →
      (sg_httpsrv_free (some s)).trace[j]? = some (FreeEv.resumeCon b) →
      i < j) ∧
    (∀ (i j a : Nat),
      (sg_httpsrv_free (some s)).trace[i]? = some (FreeEv.resumeCon a) →
      (sg_httpsrv_free (some s)).trace[j]? = some FreeEv.stopEngine →
      i < j) ∧
    (s.handle = none →
      FreeEv.stopEngine ∉ (sg_httpsrv_free (some s)).trace ∧
      (sg_httpsrv_free (some s)).released = true) := by
  refine ⟨?_, ?_, ?_, ?_, ?_, ?_, ?_⟩
  · simp [sg_httpsrv_free, resumeLoop_registry]
  · intro e he
    rw [free_trace_eq]
    exact List.mem_cons_of_mem _
      (List.mem_append.mpr (Or.inl (joinThread_mem_joinPhase _ e he)))
  · intro n t hn
    rw [free_trace_eq] at hn ⊢
    match n, hn with
    | 0, hn => exact absurd hn (by simp)
    | (m+1), hn =>
      have hn' : (joinPhase s.isolated_list ++ restEvents s)[m]? =
          some (FreeEv.joinThread t) := by simpa using hn
      obtain ⟨hm0, hmu, hml⟩ :=
        joinPhase_bracket s.isolated_list (restEvents s)
          (fun t0 => restEvents_no_join s t0) m t hn'
      obtain ⟨m', rfl⟩ : ∃ m', m = m' + 1 :=
        ⟨m - 1, (Nat.succ_pred_eq_of_pos (Nat.pos_of_ne_zero hm0)).symm⟩
      refine ⟨Nat.succ_ne_zero _, ?_, ?_⟩
      · simpa using hmu
      · simpa using hml
  · intro e he hs
    have hmem := resumeCon_mem_resumeLoop s.isolated_list e he hs
    simp only [sg_httpsrv_free, List.mem_append, List.mem_cons]
    tauto
  · intro i j a b hi hj
    have hsplit : (sg_httpsrv_free (some s)).trace =
        (FreeEv.lock :: (joinPhase s.isolated_list ++
          [FreeEv.unlock, FreeEv.lock])) ++
        ((resumeLoop s.isolated_list).1 ++ [FreeEv.unlock] ++
          (if s.handle.isSome then [FreeEv.stopEngine] else []) ++
          [FreeEv.releaseSrv]) := by
      simp [sg_httpsrv_free, List.append_assoc]
    rw [hsplit] at hi hj
    refine append_pos_lt (fun x => x = FreeEv.joinThread a)
      (fun x => x = FreeEv.resumeCon b) _ _ ?_ ?_ hi rfl hj rfl
    · intro x hx hcontra
      subst hcontra
      simp only [List.append_assoc, List.mem_append, List.mem_cons,
        List.mem_singleton, List.not_mem_nil, or_false] at hx
      rcases hx with hx | hx | hx | hx
      · obtain ⟨e, _, _, he⟩ := mem_resumeLoop _ _ hx
        exact FreeEv.noConfusion he
      · exact FreeEv.noConfusion hx
      · rcases hh : s.handle.isSome with _ | _ <;> rw [hh] at hx <;>
          simp at hx
      · exact FreeEv.noConfusion hx
    · intro x hx hcontra
      subst hcontra
      rcases List.mem_cons.mp hx with hx | hx
      · exact FreeEv.noConfusion hx
      · rcases List.mem_append.mp hx with hx | hx
        · rcases mem_joinPhase _ _ hx with hx | hx | ⟨e, _, hx⟩ <;>
            exact FreeEv.noConfusion hx
        · simp at hx
  · intro i j a hi hj
    have hsplit : (sg_httpsrv_free (some s)).trace =
        (FreeEv.lock :: (joinPhase s.isolated_list ++
          [FreeEv.unlock, FreeEv.lock] ++ (resumeLoop s.isolated_list).1 ++
          [FreeEv.unlock])) ++
        ((if s.handle.isSome then [FreeEv.stopEngine] else []) ++
          [FreeEv.releaseSrv]) := by
      simp [sg_httpsrv_free, List.append_assoc]
    rw [hsplit] at hi hj
    refine append_pos_lt (fun x => x = FreeEv.resumeCon a)
      (fun x => x = FreeEv.stopEngine) _ _ ?_ ?_ hi rfl hj rfl
    · intro x hx hcontra
      subst hcontra
      simp only [List.mem_append, List.mem_singleton, List.not_mem_nil,
        or_false] at hx
      rcases hx with hx | hx
      · rcases hh : s.handle.isSome with _ | _ <;> rw [hh] at hx <;>
          simp at hx
      · exact FreeEv.noConfusion hx
    · intro x hx hcontra
      subst hcontra
      rcases List.mem_cons.mp hx with hx | hx
      · exact FreeEv.noConfusion hx
      · rcases List.mem_append.mp hx with hx | hx
        · rcases List.mem_append.mp hx with hx | hx
          · rcases List.mem_append.mp hx with hx | hx
            · rcases mem_joinPhase _ _ hx with hx | hx | ⟨e, _, hx⟩ <;>
                exact FreeEv.noConfusion hx
            · simp at hx
          · obtain ⟨e, _, _, he⟩ := mem_resumeLoop _ _ hx
            exact FreeEv.noConfusion he
        · simp at hx
  · intro hnone
    refine ⟨?_, by simp [sg_httpsrv_free]⟩
    intro hmem
    rw [free_trace_eq] at hmem
    rcases List.mem_cons.mp hmem with hx | hx
    · exact FreeEv.noConfusion hx
    · rcases List.mem_append.mp hx with hx | hx
      · rcases mem_joinPhase _ _ hx with hx | hx | ⟨e, _, hx⟩ <;>
          exact FreeEv.noConfusion hx
      · rw [restEvents] at hx
        rcases List.mem_append.mp hx with hx | hx
        · rcases List.mem_append.mp hx with hx | hx
          · rcases List.mem_append.mp hx with hx | hx
            · rcases List.mem_append.mp hx with hx | hx
              · simp at hx
              · obtain ⟨e, _, _, he⟩ := mem_resumeLoop _ _ hx
                exact FreeEv.noConfusion he
            · simp at hx
          · rw [hnone] at hx
            simp at hx
        · simp at hx

/-- `srvLive` with two isolated workers, the first one suspended. -/
def srvIso : SgHttpSrv := { srvLive with isolated_list := [⟨7, true⟩, ⟨8, false⟩] }

/-- Witness for C9 on `srvIso`, whose concrete trace is
lock, unlock, join 7, lock, unlock, join 8, lock, unlock, lock,
resume 7, unlock, stopEngine, releaseSrv. -/
theorem C9_free_drains_registry_witness :
    (sg_httpsrv_free (some srvIso)).registry = [] ∧
    FreeEv.joinThread 7 ∈ (sg_httpsrv_free (some srvIso)).trace ∧
    ((2 : Nat) ≠ 0 ∧
      (sg_httpsrv_free (some srvIso)).trace[2-1]? = some FreeEv.unlock ∧
      (sg_httpsrv_free (some srvIso)).trace[2+1]? = some FreeEv.lock) ∧
    FreeEv.resumeCon 7 ∈ (sg_httpsrv_free (some srvIso)).trace ∧
    (2 : Nat) < 9 ∧ (9 : Nat) < 11 :=
  ⟨(C9_free_drains_registry srvIso).1,
   (C9_free_drains_registry srvIso).2.1 ⟨7, true⟩ (by decide),
   (C9_free_drains_registry srvIso).2.2.1 2 7 (by decide),
   (C9_free_drains_registry srvIso).2.2.2.1 ⟨7, true⟩ (by decide) rfl,
   (C9_free_drains_registry srvIso).2.2.2.2.1 2 9 7 7 (by decide) (by decide),
   (C9_free_drains_registry srvIso).2.2.2.2.2.1 9 11 7 (by decide) (by decide)⟩

end Sagui
